import Mathlib

/-!
Verification development for the Helixque backend screen-share core:
a shallow embedding of `src/backend/src/types/screenShare.ts`
(the `ScreenShareManager` state store) and of the socket handlers in
`src/backend/src/index.ts` (screenshare:start, screenshare:get-room-state,
media-state-change, disconnect), together with theorems about them.

Conventions of the embedding:
- TypeScript `Map<string, V>` becomes a total function `String → Option V`
  (the history map, read with `get(u) || []`, becomes `String → List _`
  with default `[]`).
- `Date.now()` becomes an explicit `now : Nat` argument.
- JavaScript `x || d` on numbers/strings is falsy-aware: `0` and `""`
  select the default; this is modelled by `orElseNat` / `orElseStr`.
- Optional chaining `a?.b?.c` becomes `Option.bind` chains.
- A socket emission is a value of type `Emission`; a handler returns the
  new manager state together with the list of emissions it performed, in
  program order.
-/

namespace Helixque

/-- Quality tiers of `ScreenShareState.quality`
(`"low" | "medium" | "high" | "ultra"`). -/
inductive Quality where
  | low
  | medium
  | high
  | ultra
  deriving DecidableEq, Repr

/-- Event kinds of `ScreenShareEvent.type`
(`"start" | "stop" | "error" | "quality-change"`). -/
inductive EventType where
  | start
  | stop
  | error
  | qualityChange
  deriving DecidableEq, Repr

/-- Error kinds of `ScreenShareError.type`. -/
inductive ShareErrorType where
  | permission
  | notSupported
  | notFound
  | aborted
  | connection
  | unknown
  deriving DecidableEq, Repr

/-- `ScreenShareError` from screenShare.ts (field `type` renamed to
`errType` to avoid clashing with the event field). -/
structure ScreenShareError where
  name : String
  message : String
  code : Option String
  errType : ShareErrorType
  deriving DecidableEq, Repr

/-- `{ ideal?: number; max?: number }` used for width/height/frameRate. -/
structure SizeConstraint where
  ideal : Option Nat
  max : Option Nat
  deriving DecidableEq, Repr

/-- The `video` member of `ScreenShareConstraints`. -/
structure VideoConstraints where
  cursor : Option String
  displaySurface : Option String
  frameRate : Option SizeConstraint
  width : Option SizeConstraint
  height : Option SizeConstraint
  deriving DecidableEq, Repr

/-- `ScreenShareConstraints` from screenShare.ts.  The `audio` member is
never read by the backend manager or handlers, so it is omitted from the
embedding.  The manager receives `constraints: any`, possibly
null/undefined, hence functions below take `Option ScreenShareConstraints`;
the literal `{}` is `some { video := none }`. -/
structure ScreenShareConstraints where
  video : Option VideoConstraints
  deriving DecidableEq, Repr

/-- `ScreenShareState` from screenShare.ts. -/
structure ScreenShareState where
  isScreenSharing : Bool
  micOn : Bool
  camOn : Bool
  quality : Option Quality
  displaySurface : Option String
  deriving DecidableEq, Repr

/-- The `data?: any` payload of a `ScreenShareEvent`: absent for stop
events, `{ constraints }` for start events, `{ error }` for error events. -/
inductive EventData where
  | noData
  | constraints (c : Option ScreenShareConstraints)
  | error (e : ScreenShareError)
  deriving DecidableEq, Repr

/-- `ScreenShareEvent` from screenShare.ts. -/
structure ScreenShareEvent where
  type : EventType
  data : EventData
  timestamp : Nat
  userId : String
  roomId : String
  deriving DecidableEq, Repr

/-- `data?.error` on an event payload. -/
def eventDataError : EventData → Option ScreenShareError
  | EventData.error e => some e
  | _ => none

/-- JavaScript `v || d` for an optional number: `undefined` and `0` are
falsy and select the default. -/
def orElseNat (v : Option Nat) (d : Nat) : Nat :=
  match v with
  | some n => if n = 0 then d else n
  | none => d

/-- JavaScript `v || d` for an optional string: `undefined` and `""` are
falsy and select the default. -/
def orElseStr (v : Option String) (d : String) : String :=
  match v with
  | some s => if s = "" then d else s
  | none => d

/-- `constraints?.video?.width?.ideal`. -/
def widthIdeal (c : Option ScreenShareConstraints) : Option Nat :=
  ((c.bind ScreenShareConstraints.video).bind VideoConstraints.width).bind SizeConstraint.ideal

/-- `constraints?.video?.height?.ideal`. -/
def heightIdeal (c : Option ScreenShareConstraints) : Option Nat :=
  ((c.bind ScreenShareConstraints.video).bind VideoConstraints.height).bind SizeConstraint.ideal

/-- `constraints?.video?.frameRate?.ideal`. -/
def frameRateIdeal (c : Option ScreenShareConstraints) : Option Nat :=
  ((c.bind ScreenShareConstraints.video).bind VideoConstraints.frameRate).bind SizeConstraint.ideal

/-- `constraints?.video?.displaySurface`. -/
def displaySurfaceOf (c : Option ScreenShareConstraints) : Option String :=
  (c.bind ScreenShareConstraints.video).bind VideoConstraints.displaySurface

/-- `ScreenShareManager.determineQuality` (screenShare.ts lines 198-207):
defaults width/height/frameRate via `||`, then tests thresholds in
descending order. -/
def determineQuality (constraints : Option ScreenShareConstraints) : Quality :=
  let width := orElseNat (widthIdeal constraints) 1920
  let height := orElseNat (heightIdeal constraints) 1080
  let _frameRate := orElseNat (frameRateIdeal constraints) 30
  if width ≥ 3840 ∧ height ≥ 2160 then Quality.ultra
  else if width ≥ 2560 ∧ height ≥ 1440 then Quality.high
  else if width ≥ 1920 ∧ height ≥ 1080 then Quality.medium
  else Quality.low

/-- The list-level body of `ScreenShareManager.addToHistory`
(screenShare.ts lines 214-224): push the event, then `shift()` the oldest
entry away when the length exceeds 50. -/
def pushHistory (history : List ScreenShareEvent) (event : ScreenShareEvent) :
    List ScreenShareEvent :=
  let h := history ++ [event]
  if h.length > 50 then h.tail else h

/-- The `ScreenShareManager` instance state: the two private maps. -/
structure ScreenShareManager where
  activeScreenShares : String → Option ScreenShareState
  screenShareHistory : String → List ScreenShareEvent

/-- A freshly constructed manager: both maps empty. -/
def emptyManager : ScreenShareManager :=
  { activeScreenShares := fun _ => none, screenShareHistory := fun _ => [] }

/-- `ScreenShareManager.addToHistory` at the map level. -/
def addToHistory (m : ScreenShareManager) (userId : String)
    (event : ScreenShareEvent) : ScreenShareManager :=
  { m with screenShareHistory := fun k =>
      if k = userId then pushHistory (m.screenShareHistory userId) event
      else m.screenShareHistory k }

/-- `ScreenShareManager.getScreenShareState` (lines 155-157):
`this.activeScreenShares.get(userId) || null`. -/
def getScreenShareState (m : ScreenShareManager) (userId : String) :
    Option ScreenShareState :=
  m.activeScreenShares userId

/-- `ScreenShareManager.getMetrics` (lines 190-192):
`this.screenShareHistory.get(userId) || []`. -/
def getMetrics (m : ScreenShareManager) (userId : String) :
    List ScreenShareEvent :=
  m.screenShareHistory userId

/-- `ScreenShareManager.startScreenShare` (lines 65-92): builds the start
event, overwrites the active state with sharing=true, mic on, camera off,
derived quality and display surface, appends the event to history, and
returns the event. -/
def startScreenShare (m : ScreenShareManager) (userId roomId : String)
    (constraints : Option ScreenShareConstraints) (now : Nat) :
    ScreenShareEvent × ScreenShareManager :=
  let event : ScreenShareEvent :=
    { type := EventType.start, data := EventData.constraints constraints,
      timestamp := now, userId := userId, roomId := roomId }
  let st : ScreenShareState :=
    { isScreenSharing := true, micOn := true, camOn := false,
      quality := some (determineQuality constraints),
      displaySurface := some (orElseStr (displaySurfaceOf constraints) "unknown") }
  let m' : ScreenShareManager :=
    { m with activeScreenShares := fun k =>
        if k = userId then some st else m.activeScreenShares k }
  (event, addToHistory m' userId event)

/-- `ScreenShareManager.stopScreenShare` (lines 99-122): builds the stop
event; if an active state exists, clears the sharing flag and restores the
camera flag; in either case appends the event and returns it. -/
def stopScreenShare (m : ScreenShareManager) (userId roomId : String)
    (now : Nat) : ScreenShareEvent × ScreenShareManager :=
  let event : ScreenShareEvent :=
    { type := EventType.stop, data := EventData.noData,
      timestamp := now, userId := userId, roomId := roomId }
  let m' : ScreenShareManager :=
    match m.activeScreenShares userId with
    | some currentState =>
        { m with activeScreenShares := fun k =>
            if k = userId then
              some { currentState with isScreenSharing := false, camOn := true }
            else m.activeScreenShares k }
    | none => m
  (event, addToHistory m' userId event)

/-- `ScreenShareManager.handleScreenShareError` (lines 130-149): builds the
error event, deletes the active state, appends the event and returns it. -/
def handleScreenShareError (m : ScreenShareManager) (userId roomId : String)
    (error : ScreenShareError) (now : Nat) :
    ScreenShareEvent × ScreenShareManager :=
  let event : ScreenShareEvent :=
    { type := EventType.error, data := EventData.error error,
      timestamp := now, userId := userId, roomId := roomId }
  let m' : ScreenShareManager :=
    { m with activeScreenShares := fun k =>
        if k = userId then none else m.activeScreenShares k }
  (event, addToHistory m' userId event)

/-- `ScreenShareManager.cleanup` (lines 180-184): deletes the active state
only; the history map is deliberately kept. -/
def cleanup (m : ScreenShareManager) (userId : String) : ScreenShareManager :=
  { m with activeScreenShares := fun k =>
      if k = userId then none else m.activeScreenShares k }

/-! Session-coordinator layer: the socket handlers of index.ts. -/

/-- Payloads the handlers emit (each constructor is one named socket
event together with its payload shape). -/
inductive Message where
  | peerStarted (userId : String) (state : Option ScreenShareState) (timestamp : Nat)
  | startSuccess (event : ScreenShareEvent)
  | shareError (error : Option ScreenShareError)
  | peerStopped (userId : String) (state : Option ScreenShareState) (timestamp : Nat)
  | stopSuccess (event : ScreenShareEvent)
  | peerStoppedDisconnect (userId : String) (reason : String) (timestamp : Nat)
  | chatSystem (text : String) (ts : Nat)
  | peerMediaStateChange (isScreenSharing micOn camOn : Option Bool) (fromId : String)
  deriving DecidableEq, Repr

/-- Where an emission goes: `socket.to(roomId).emit` reaches every room
member except the origin socket; `socket.emit` reaches the origin only;
`socket.nsp.to(room).emit` reaches every member of the room. -/
inductive Emission where
  | toRoom (roomId : String) (msg : Message)
  | toOrigin (msg : Message)
  | toNspRoom (room : String) (msg : Message)
  deriving DecidableEq, Repr

/-- The `error: any` caught by a handler's catch block: its `name` and
`message` properties, possibly absent. -/
structure JsError where
  name : Option String
  message : Option String
  deriving DecidableEq, Repr

/-- The `ScreenShareError` the screenshare:start catch block builds from a
caught exception (index.ts lines 100-108). -/
def coerceError (e : JsError) : ScreenShareError :=
  { name := orElseStr e.name "UnknownError",
    message := orElseStr e.message "Failed to start screen sharing",
    code := none, errType := ShareErrorType.unknown }

/-- The screenshare:start handler (index.ts lines 84-113).  The manager
calls in the try body are pure state transitions that cannot themselves
fail; `thrown = some e` is the exception oracle modelling the try body
raising `e` before any of its effects, in which case the catch block runs:
it records an error in the state store and emits the error detail to the
origin only.  With `thrown = none` the handler starts the share, then
broadcasts peer-started carrying `getScreenShareState` read from the
already-mutated store, then acknowledges the origin. -/
def handleScreenshareStart (m : ScreenShareManager) (sid roomId : String)
    (constraints : Option ScreenShareConstraints) (now : Nat)
    (thrown : Option JsError) : ScreenShareManager × List Emission :=
  match thrown with
  | none =>
      let r := startScreenShare m sid roomId constraints now
      (r.2,
       [Emission.toRoom roomId
          (Message.peerStarted sid (getScreenShareState r.2 sid) r.1.timestamp),
        Emission.toOrigin (Message.startSuccess r.1)])
  | some e =>
      let r := handleScreenShareError m sid roomId (coerceError e) now
      (r.2, [Emission.toOrigin (Message.shareError (eventDataError r.1.data))])

/-- Reply shape of the screenshare:get-room-state callback. -/
structure RoomStateReply where
  success : Bool
  data : List (String × ScreenShareState)
  deriving DecidableEq, Repr

/-- The screenshare:get-room-state handler (index.ts lines 159-176):
`io.sockets.adapter.rooms.get(roomId) ?? new Set()` is the `rooms` map
with default empty; the reduce keeps exactly the members whose state
exists and has `isScreenSharing` set.  The reply goes through the
callback; the handler performs no socket emission. -/
def handleGetRoomState (rooms : String → Option (List String))
    (m : ScreenShareManager) (roomId : String) :
    RoomStateReply × List Emission :=
  let roomSockets := (rooms roomId).getD []
  let activeShares := roomSockets.foldl
    (fun acc socketId =>
      match getScreenShareState m socketId with
      | some st => if st.isScreenSharing then acc ++ [(socketId, st)] else acc
      | none => acc) []
  ({ success := true, data := activeShares }, [])

/-- JavaScript truthiness of an optional string (`if (roomId)`): absent
and `""` are falsy. -/
def truthyStr (s : Option String) : Option String :=
  match s with
  | some r => if r = "" then none else some r
  | none => none

/-- The media-state-change handler (index.ts lines 199-224).  `userRoom`
is `userManager.getUser(socket.id)?.roomId`; `isScreenSharing = none`
models the field being `undefined`.  When the flag disagrees with the
stored state the handler reconciles by calling the manager's start (with
the literal `{}` as constraints) or stop, then relays the raw flags to
room peers. -/
def handleMediaStateChange (m : ScreenShareManager) (sid : String)
    (userRoom : Option String) (isScreenSharing micOn camOn : Option Bool)
    (now : Nat) : ScreenShareManager × List Emission :=
  match truthyStr userRoom with
  | none => (m, [])
  | some roomId =>
      let m' :=
        match isScreenSharing with
        | none => m
        | some flag =>
            let sharingNow :=
              (Option.map ScreenShareState.isScreenSharing
                (getScreenShareState m sid)).getD false
            if flag && !sharingNow then
              (startScreenShare m sid roomId (some { video := none }) now).2
            else if !flag && sharingNow then
              (stopScreenShare m sid roomId now).2
            else m
      (m', [Emission.toRoom roomId
              (Message.peerMediaStateChange isScreenSharing micOn camOn sid)])

/-- The registry entry `userManager.getUser(socket.id)` read by the
disconnect handler: display name and current room id. -/
structure UserEntry where
  name : String
  roomId : Option String
  deriving DecidableEq, Repr

/-- The disconnect handler (index.ts lines 253-285), screen-share part:
`screenShareManager.cleanup(socket.id)` runs first (line 260); afterwards,
when the registry entry has a truthy room id, the chat departure notice is
emitted, and `getScreenShareState(socket.id)` is read (line 274) to decide
whether to emit the peer-stopped notice with reason user-disconnected. -/
def handleDisconnect (m : ScreenShareManager) (sid : String)
    (u : Option UserEntry) (now : Nat) : ScreenShareManager × List Emission :=
  let m' := cleanup m sid
  match u with
  | none => (m', [])
  | some user =>
      match truthyStr user.roomId with
      | none => (m', [])
      | some roomId =>
          let chatMsg := Emission.toNspRoom ("chat:" ++ roomId)
            (Message.chatSystem (user.name ++ " left the chat") now)
          match getScreenShareState m' sid with
          | some st =>
              if st.isScreenSharing then
                (m', [chatMsg,
                      Emission.toNspRoom roomId
                        (Message.peerStoppedDisconnect sid "user-disconnected" now)])
              else (m', [chatMsg])
          | none => (m', [chatMsg])

/-- The spec's quality-tier formula, written from its words: thresholds
tested in descending order over the requested width and height, first
match winning. -/
def specQualityTier (width height : Nat) : Quality :=
  if width ≥ 3840 ∧ height ≥ 2160 then Quality.ultra
  else if width ≥ 2560 ∧ height ≥ 1440 then Quality.high
  else if width ≥ 1920 ∧ height ≥ 1080 then Quality.medium
  else Quality.low

/-- Constraints requesting exactly the given ideal width and height. -/
def idealConstraints (width height : Nat) : ScreenShareConstraints :=
  { video := some
      { cursor := none, displaySurface := none, frameRate := none,
        width := some { ideal := some width, max := none },
        height := some { ideal := some height, max := none } } }

/-- A state representing a live share, used for concrete instantiations. -/
def sampleState : ScreenShareState :=
  { isScreenSharing := true, micOn := true, camOn := false,
    quality := some Quality.medium, displaySurface := some "monitor" }

/-- A manager in which connection u1 is actively sharing. -/
def sampleManager : ScreenShareManager :=
  { activeScreenShares := fun k => if k = "u1" then some sampleState else none,
    screenShareHistory := fun _ => [] }

/-- Constraints whose video member gives a height ideal but no width
ideal, as a client may legally send. -/
def partialConstraints : ScreenShareConstraints :=
  { video := some
      { cursor := none, displaySurface := none, frameRate := none,
        width := none, height := some { ideal := some 500, max := none } } }

/-! Helper lemmas shared by the claim theorems. -/

/-- The event just pushed is always the last entry of the history. -/
lemma pushHistory_getLast (h : List ScreenShareEvent) (e : ScreenShareEvent) :
    (pushHistory h e).getLast? = some e := by
  show (if (h ++ [e]).length > 50 then (h ++ [e]).tail else h ++ [e]).getLast? = some e
  split
  · rename_i hlen
    cases h with
    | nil => simp at hlen
    | cons a t => simp
  · simp

/-- `addToHistory` leaves the active-share map untouched. -/
lemma addToHistory_active (m : ScreenShareManager) (u : String)
    (e : ScreenShareEvent) :
    (addToHistory m u e).activeScreenShares = m.activeScreenShares := rfl

/-- When both ideal dimensions are absent, `determineQuality` classifies
with the substituted defaults 1920 and 1080, giving the medium tier. -/
lemma determineQuality_of_none (c : Option ScreenShareConstraints)
    (hw : widthIdeal c = none) (hh : heightIdeal c = none) :
    determineQuality c = Quality.medium := by
  simp [determineQuality, hw, hh, orElseNat]

/-- A fold of `pushHistory` over any arrival sequence keeps exactly the
most recent 50 events, in arrival order: it equals the sequence with all
but the last 50 entries dropped. -/
lemma foldl_pushHistory_drop (events : List ScreenShareEvent) :
    List.foldl pushHistory [] events = events.drop (events.length - 50) := by
  induction events using List.reverseRecOn with
  | nil => rfl
  | append_singleton l e ih =>
    rw [List.foldl_append, List.foldl_cons, List.foldl_nil, ih]
    by_cases hl : l.length < 50
    · have h1 : l.length - 50 = 0 := by omega
      have h2 : (l ++ [e]).length - 50 = 0 := by
        simp only [List.length_append, List.length_cons, List.length_nil]; omega
      rw [h1, h2, List.drop_zero, List.drop_zero]
      show (if (l ++ [e]).length > 50 then (l ++ [e]).tail else l ++ [e]) = l ++ [e]
      rw [if_neg]
      simp only [List.length_append, List.length_cons, List.length_nil, not_lt]
      omega
    · push_neg at hl
      have hlen : ((l.drop (l.length - 50)) ++ [e]).length = 51 := by
        simp only [List.length_append, List.length_drop, List.length_cons,
          List.length_nil]
        omega
      show (if ((l.drop (l.length - 50)) ++ [e]).length > 50 then
              ((l.drop (l.length - 50)) ++ [e]).tail
            else (l.drop (l.length - 50)) ++ [e]) =
        (l ++ [e]).drop ((l ++ [e]).length - 50)
      rw [if_pos (by omega)]
      rw [← List.drop_one,
        List.drop_append_of_le_length (by simp only [List.length_drop]; omega),
        List.drop_drop]
      rw [List.drop_append_of_le_length
        (by simp only [List.length_append, List.length_cons, List.length_nil]; omega)]
      have harith : l.length - 50 + 1 = (l ++ [e]).length - 50 := by
        simp only [List.length_append, List.length_cons, List.length_nil]
        omega
      rw [harith]

/-- One get-room-state collection step as an optional pair: the member
with its state when it is actively sharing, nothing otherwise. -/
def collectShare (m : ScreenShareManager) (socketId : String) :
    Option (String × ScreenShareState) :=
  match getScreenShareState m socketId with
  | some st => if st.isScreenSharing then some (socketId, st) else none
  | none => none

/-- The get-room-state reduce equals `filterMap collectShare`. -/
lemma roomStateFold_eq (m : ScreenShareManager) :
    ∀ (l : List String) (acc : List (String × ScreenShareState)),
      List.foldl
        (fun acc socketId =>
          match getScreenShareState m socketId with
          | some st => if st.isScreenSharing then acc ++ [(socketId, st)] else acc
          | none => acc) acc l
        = acc ++ l.filterMap (collectShare m) := by
  intro l
  induction l with
  | nil => intro acc; simp
  | cons a t ih =>
    intro acc
    simp only [List.foldl_cons, List.filterMap_cons]
    cases hfa : getScreenShareState m a with
    | none => simp [collectShare, hfa, ih]
    | some st =>
      cases hs : st.isScreenSharing with
      | false => simp [collectShare, hfa, hs, ih]
      | true => simp [collectShare, hfa, hs, ih]

/-- Characterization of one collection step. -/
lemma collectShare_eq_some (m : ScreenShareManager) (a u : String)
    (st : ScreenShareState) :
    collectShare m a = some (u, st) ↔
      a = u ∧ getScreenShareState m a = some st ∧ st.isScreenSharing = true := by
  unfold collectShare
  cases hma : getScreenShareState m a with
  | none => simp
  | some st' =>
    cases hs : st'.isScreenSharing with
    | false =>
      simp only [hs, Bool.false_eq_true, if_false]
      constructor
      · intro hfalse; cases hfalse
      · rintro ⟨rfl, hsome, hshare⟩
        cases hsome
        rw [hs] at hshare
        cases hshare
    | true =>
      simp only [hs, if_true, Option.some_inj, Prod.mk.injEq]
      constructor
      · rintro ⟨rfl, rfl⟩
        exact ⟨rfl, rfl, hs⟩
      · rintro ⟨rfl, hsome, _⟩
        cases hsome
        exact ⟨rfl, rfl⟩

/-! Claim theorems. -/

/-- C2 (counterexample): a request whose width ideal is the (falsy)
number 0 and whose height ideal is 2160 is classified medium by
`determineQuality` — the `||` default replaces the 0 with 1920 — while
the claim's threshold formula over the requested pair (0, 2160) yields
low.  So the quality tier is not the claimed pure function of the
requested width and height at this input. -/
theorem determineQuality_zero_width_cex :
    determineQuality (some (idealConstraints 0 2160)) = Quality.medium ∧
    specQualityTier 0 2160 = Quality.low := by decide

/-- C2 (amended): for positive requested width and height — a zero ideal
is falsy in JavaScript and is replaced by the default like an absent one —
`determineQuality` agrees with the spec's descending-threshold formula
`specQualityTier`, whose first match wins, so a pair exactly at a
threshold classifies into the higher tier. -/
theorem determineQuality_matches_spec (w h : Nat) (hw : 0 < w) (hh : 0 < h) :
    determineQuality (some (idealConstraints w h)) = specQualityTier w h := by
  have hw' : w ≠ 0 := Nat.pos_iff_ne_zero.mp hw
  have hh' : h ≠ 0 := Nat.pos_iff_ne_zero.mp hh
  simp [determineQuality, specQualityTier, idealConstraints, widthIdeal,
    heightIdeal, frameRateIdeal, orElseNat, hw', hh']

/-- C2 (witness): the theorem applied at the 4K boundary pair, which the
spec formula classifies as ultra. -/
theorem determineQuality_matches_spec_witness :
    determineQuality (some (idealConstraints 3840 2160)) = specQualityTier 3840 2160 ∧
    specQualityTier 3840 2160 = Quality.ultra :=
  ⟨determineQuality_matches_spec 3840 2160 (by decide) (by decide), by decide⟩

/-- C4: after `handleScreenShareError` the active state of the identity is
deleted entirely (a subsequent `getScreenShareState` returns none, not an
inactive record), and the event appended last to the identity's history is
the returned event of kind error carrying the error payload. -/
theorem handleScreenShareError_clears_state (m : ScreenShareManager)
    (userId roomId : String) (error : ScreenShareError) (now : Nat) :
    getScreenShareState (handleScreenShareError m userId roomId error now).2 userId = none ∧
    (handleScreenShareError m userId roomId error now).1.type = EventType.error ∧
    (handleScreenShareError m userId roomId error now).1.data = EventData.error error ∧
    (getMetrics (handleScreenShareError m userId roomId error now).2 userId).getLast? =
      some (handleScreenShareError m userId roomId error now).1 := by
  refine ⟨?_, rfl, rfl, ?_⟩
  · simp [handleScreenShareError, getScreenShareState, addToHistory]
  · simp [handleScreenShareError, getMetrics, addToHistory, pushHistory_getLast]

/-- C5: `stopScreenShare` is total (it cannot raise) and always returns an
event of kind stop; when no active state exists it creates none (get still
returns none afterwards), and when one exists it clears the sharing flag
and restores the camera flag to true. -/
theorem stopScreenShare_idempotent (m : ScreenShareManager)
    (userId roomId : String) (now : Nat) :
    (stopScreenShare m userId roomId now).1.type = EventType.stop ∧
    (getScreenShareState m userId = none →
      getScreenShareState (stopScreenShare m userId roomId now).2 userId = none) ∧
    (∀ st, getScreenShareState m userId = some st →
      getScreenShareState (stopScreenShare m userId roomId now).2 userId =
        some { st with isScreenSharing := false, camOn := true }) := by
  refine ⟨rfl, ?_, ?_⟩
  · intro hnone
    simp only [getScreenShareState] at hnone
    simp [stopScreenShare, getScreenShareState, addToHistory, hnone]
  · intro st hst
    simp only [getScreenShareState] at hst
    simp [stopScreenShare, getScreenShareState, addToHistory, hst]

/-- C5 (witness): the theorem applied to a manager with no active share
for u1 and to one in which u1 is actively sharing. -/
theorem stopScreenShare_idempotent_witness :
    getScreenShareState (stopScreenShare emptyManager "u1" "r1" 0).2 "u1" = none ∧
    getScreenShareState (stopScreenShare sampleManager "u1" "r1" 0).2 "u1" =
      some { sampleState with isScreenSharing := false, camOn := true } :=
  ⟨(stopScreenShare_idempotent emptyManager "u1" "r1" 0).2.1 rfl,
   (stopScreenShare_idempotent sampleManager "u1" "r1" 0).2.2 sampleState (by decide)⟩

/-- C9 (counterexample): a constraints object whose width ideal is absent
but whose height ideal is 500 gets only the width defaulted, and
`startScreenShare` assigns quality low — not medium as the claim states
for every constraints object with an absent dimension. -/
theorem startScreenShare_default_cex :
    getScreenShareState
        (startScreenShare emptyManager "u1" "r1" (some partialConstraints) 0).2 "u1" =
      some { isScreenSharing := true, micOn := true, camOn := false,
             quality := some Quality.low, displaySurface := some "unknown" } ∧
    Quality.low ≠ Quality.medium := by decide

/-- C9 (amended): each absent ideal dimension is individually replaced by
its default (width 1920, height 1080) before classification; when both are
absent — in particular for the empty constraints object passed by the
media-state-change auto-start reconciliation — the assigned tier is
medium, not low. -/
theorem startScreenShare_default_quality (m : ScreenShareManager)
    (u roomId : String) (c : Option ScreenShareConstraints)
    (micFlag camFlag : Option Bool) (now : Nat) :
    (widthIdeal c = none → heightIdeal c = none →
      getScreenShareState (startScreenShare m u roomId c now).2 u =
        some { isScreenSharing := true, micOn := true, camOn := false,
               quality := some Quality.medium,
               displaySurface := some (orElseStr (displaySurfaceOf c) "unknown") }) ∧
    (roomId ≠ "" → getScreenShareState m u = none →
      getScreenShareState
          (handleMediaStateChange m u (some roomId) (some true) micFlag camFlag now).1 u =
        some { isScreenSharing := true, micOn := true, camOn := false,
               quality := some Quality.medium, displaySurface := some "unknown" }) := by
  constructor
  · intro hw hh
    simp [startScreenShare, getScreenShareState, addToHistory,
      determineQuality_of_none c hw hh]
  · intro hroom hstate
    simp only [getScreenShareState] at hstate
    simp [handleMediaStateChange, truthyStr, hroom, hstate,
      getScreenShareState, startScreenShare, addToHistory,
      determineQuality_of_none (some { video := none }) rfl rfl,
      displaySurfaceOf, orElseStr]

/-- C9 (witness): the theorem applied with wholly absent constraints and
with the auto-start reconciliation on an idle manager. -/
theorem startScreenShare_default_quality_witness :
    getScreenShareState (startScreenShare emptyManager "u1" "r1" none 0).2 "u1" =
      some { isScreenSharing := true, micOn := true, camOn := false,
             quality := some Quality.medium,
             displaySurface := some (orElseStr (displaySurfaceOf none) "unknown") } ∧
    getScreenShareState
        (handleMediaStateChange emptyManager "u1" (some "r1") (some true) none none 0).1 "u1" =
      some { isScreenSharing := true, micOn := true, camOn := false,
             quality := some Quality.medium, displaySurface := some "unknown" } :=
  ⟨(startScreenShare_default_quality emptyManager "u1" "r1" none none none 0).1 rfl rfl,
   (startScreenShare_default_quality emptyManager "u1" "r1" none none none 0).2
      (by decide) rfl⟩

/-- C10: `cleanup` deletes only the given identity's active state: the
identity's own history stays readable through `getMetrics`, every other
identity's active state is untouched, and every identity's history is
untouched. -/
theorem cleanup_frame (m : ScreenShareManager) (u v w : String) :
    getScreenShareState (cleanup m u) u = none ∧
    (v ≠ u → getScreenShareState (cleanup m u) v = getScreenShareState m v) ∧
    getMetrics (cleanup m u) w = getMetrics m w := by
  refine ⟨by simp [cleanup, getScreenShareState], ?_, rfl⟩
  intro hv
  simp [cleanup, getScreenShareState, hv]

/-- C10 (witness): the theorem applied to the sample manager, deleting u1
and leaving u2's state and u1's history readable. -/
theorem cleanup_frame_witness :
    getScreenShareState (cleanup sampleManager "u1") "u1" = none ∧
    getScreenShareState (cleanup sampleManager "u1") "u2" =
      getScreenShareState sampleManager "u2" ∧
    getMetrics (cleanup sampleManager "u1") "u1" = getMetrics sampleManager "u1" :=
  ⟨(cleanup_frame sampleManager "u1" "u2" "u1").1,
   (cleanup_frame sampleManager "u1" "u2" "u1").2.1 (by decide),
   (cleanup_frame sampleManager "u1" "u2" "u1").2.2⟩

/-- An arrival sequence of stop events for exercising the history bound. -/
def mkStopEvent (n : Nat) : ScreenShareEvent :=
  { type := EventType.stop, data := EventData.noData, timestamp := n,
    userId := "u", roomId := "r" }

/-- C3: the per-identity history built by any sequence of `pushHistory`
appends never exceeds 50 entries, always equals the arrival sequence with
everything but the newest 50 dropped (FIFO, oldest first), and in
particular after 51 appends the oldest entry has been evicted and the
newest 50 remain in arrival order. -/
theorem screenShareHistory_bounded (events : List ScreenShareEvent) :
    (List.foldl pushHistory [] events).length ≤ 50 ∧
    List.foldl pushHistory [] events = events.drop (events.length - 50) ∧
    (events.length = 51 → List.foldl pushHistory [] events = events.drop 1) := by
  refine ⟨?_, foldl_pushHistory_drop events, ?_⟩
  · rw [foldl_pushHistory_drop events]
    simp only [List.length_drop]
    omega
  · intro h51
    rw [foldl_pushHistory_drop events, h51]

/-- C3 (witness): the theorem applied to a concrete arrival sequence of 51
events, whose history is that sequence without its oldest entry. -/
theorem screenShareHistory_bounded_witness :
    List.foldl pushHistory [] ((List.range 51).map mkStopEvent) =
      ((List.range 51).map mkStopEvent).drop 1 :=
  (screenShareHistory_bounded ((List.range 51).map mkStopEvent)).2.2 (by simp)

/-- C6: in the screenshare:start handler's success path, the state-store
mutation is applied first and the peer-started broadcast carries the state
snapshot read back from the already-committed store: the snapshot equals
the post-start state, with the sharing flag set and the camera flag
cleared, never the pre-mutation state. -/
theorem startHandler_broadcast_committed (m : ScreenShareManager)
    (sid roomId : String) (c : Option ScreenShareConstraints) (now : Nat) :
    getScreenShareState (handleScreenshareStart m sid roomId c now none).1 sid =
      some { isScreenSharing := true, micOn := true, camOn := false,
             quality := some (determineQuality c),
             displaySurface := some (orElseStr (displaySurfaceOf c) "unknown") } ∧
    (handleScreenshareStart m sid roomId c now none).2 =
      [Emission.toRoom roomId (Message.peerStarted sid
          (getScreenShareState (handleScreenshareStart m sid roomId c now none).1 sid)
          now),
       Emission.toOrigin (Message.startSuccess
          { type := EventType.start, data := EventData.constraints c,
            timestamp := now, userId := sid, roomId := roomId })] := by
  constructor
  · simp [handleScreenshareStart, startScreenShare, getScreenShareState, addToHistory]
  · simp [handleScreenshareStart, startScreenShare, getScreenShareState, addToHistory]

/-- C7: when the screenshare:start try body raises, the catch block
converts the exception into a single screenshare:error emission directed
at the origin connection only — no room broadcast occurs — records an
error event in the state store's history, leaves no active state, and the
handler still returns normally (it is a total function). -/
theorem startHandler_catches (m : ScreenShareManager) (sid roomId : String)
    (c : Option ScreenShareConstraints) (now : Nat) (e : JsError) :
    (handleScreenshareStart m sid roomId c now (some e)).2 =
      [Emission.toOrigin (Message.shareError (some (coerceError e)))] ∧
    getScreenShareState (handleScreenshareStart m sid roomId c now (some e)).1 sid = none ∧
    (getMetrics (handleScreenshareStart m sid roomId c now (some e)).1 sid).getLast? =
      some { type := EventType.error, data := EventData.error (coerceError e),
             timestamp := now, userId := sid, roomId := roomId } := by
  refine ⟨rfl, ?_, ?_⟩
  · simp [handleScreenshareStart, handleScreenShareError, getScreenShareState,
      addToHistory]
  · simp [handleScreenshareStart, handleScreenShareError, getMetrics,
      addToHistory, pushHistory_getLast]

/-- C8: the get-room-state reply is request/response only (the handler
performs no socket emission), succeeds, and its data lists exactly the
pairs of a current member of the queried room with its state whose
sharing flag is set; an unknown room yields a successful reply with an
empty list. -/
theorem getRoomState_reply (rooms : String → Option (List String))
    (m : ScreenShareManager) (roomId : String) :
    (handleGetRoomState rooms m roomId).2 = [] ∧
    (handleGetRoomState rooms m roomId).1.success = true ∧
    (∀ u st, (u, st) ∈ (handleGetRoomState rooms m roomId).1.data ↔
      u ∈ (rooms roomId).getD [] ∧ getScreenShareState m u = some st ∧
        st.isScreenSharing = true) ∧
    (rooms roomId = none → (handleGetRoomState rooms m roomId).1.data = []) := by
  refine ⟨rfl, rfl, ?_, ?_⟩
  · intro u st
    show (u, st) ∈ List.foldl
        (fun acc socketId =>
          match getScreenShareState m socketId with
          | some st => if st.isScreenSharing then acc ++ [(socketId, st)] else acc
          | none => acc) [] ((rooms roomId).getD []) ↔ _
    rw [roomStateFold_eq m ((rooms roomId).getD []) []]
    rw [List.nil_append, List.mem_filterMap]
    constructor
    · rintro ⟨a, ha, hfa⟩
      obtain ⟨rfl, hget, hshare⟩ := (collectShare_eq_some m a u st).mp hfa
      exact ⟨ha, hget, hshare⟩
    · rintro ⟨hmem, hget, hshare⟩
      exact ⟨u, hmem, (collectShare_eq_some m u u st).mpr ⟨rfl, hget, hshare⟩⟩
  · intro hnone
    show List.foldl _ [] ((rooms roomId).getD []) = []
    rw [hnone]
    rfl

/-- C8 (witness): the theorem applied to a rooms directory that does not
know the queried room: the reply data is empty. -/
theorem getRoomState_reply_witness :
    (handleGetRoomState (fun _ => none) sampleManager "r9").1.data = [] :=
  (getRoomState_reply (fun _ => none) sampleManager "r9").2.2.2 rfl

/-- C1: at the concrete failing input — connection u1 actively sharing,
registered in room r1 under the name alice — the disconnect handler emits
only the chat departure notice and no screenshare:peer-stopped message at
all, because `cleanup` (index.ts line 260) deletes the active state before
the sharing check at line 274 reads it; `getScreenShareState` does return
none afterwards.  The claim (and the spec's scenario) expects exactly one
peer-stopped notice with reason user-disconnected here. -/
theorem disconnect_drops_peer_stopped :
    getScreenShareState sampleManager "u1" = some sampleState ∧
    sampleState.isScreenSharing = true ∧
    (handleDisconnect sampleManager "u1"
        (some { name := "alice", roomId := some "r1" }) 5).2 =
      [Emission.toNspRoom "chat:r1" (Message.chatSystem "alice left the chat" 5)] ∧
    getScreenShareState (handleDisconnect sampleManager "u1"
        (some { name := "alice", roomId := some "r1" }) 5).1 "u1" = none := by
  decide

end Helixque
